import Mathlib

/-!
Verification development for the conversation context/memory manager of the
persona-ollama-demo repository (`src/memory_manager.py`).

The embedding is shallow: each Python method of `ContextManager`,
`MessageSummarizer` and the `TokenUsage` dataclass becomes a Lean function.
Python `self.config` access becomes an explicit `MemoryConfig` (or the needed
scalar fields, for the recursive loop helpers) parameter.  The tiktoken token
counter behind `count_tokens` is modelled as an explicit function parameter
`tc : String → Nat` (the spec itself treats token counting as a pluggable
backend); a failing counter for the exception-path analysis is modelled as
`tcE : String → Except Unit Nat`.  Python floats are modelled as `Rat`.
Leading underscores of private method names are dropped (`_truncate_oldest`
becomes `truncate_oldest`, and so on).  Logging calls to the external
instrumentation sink are out of scope and are omitted.
-/

namespace MemoryManager

/-- A chat message, `{role, content}` as in the Python message dicts. -/
structure Message where
  role : String
  content : String
deriving DecidableEq, Repr

/-- The `ContextStrategy` enum of `memory_manager.py`. -/
inductive ContextStrategy where
  | truncate_oldest
  | summarize_oldest
  | keep_recent
  | sliding_window
deriving DecidableEq, Repr

/-- The `MemoryConfig` dataclass (all eight fields, in source order). -/
structure MemoryConfig where
  max_context_tokens : Nat
  strategy : ContextStrategy
  preserve_system_prompt : Bool
  summarize_threshold : Nat
  min_messages_to_keep : Nat
  enable_auto_summarization : Bool
  summarization_model : String
  summary_length : Nat
deriving DecidableEq, Repr

/-- The `TokenUsage` dataclass.  `utilization_percent` is a Python float,
modelled as `Rat`. -/
structure TokenUsage where
  total_tokens : Nat
  system_tokens : Nat
  conversation_tokens : Nat
  remaining_tokens : Nat
  max_tokens : Nat
  utilization_percent : Rat
deriving DecidableEq, Repr

/-- Property `TokenUsage.is_near_limit`: `utilization_percent > 80.0`. -/
def TokenUsage.is_near_limit (u : TokenUsage) : Bool :=
  decide (u.utilization_percent > 80)

/-- Property `TokenUsage.is_over_limit`: `total_tokens > max_tokens`. -/
def TokenUsage.is_over_limit (u : TokenUsage) : Bool :=
  decide (u.total_tokens > u.max_tokens)

/-- Shared constructor for the `TokenUsage` record built at the end of
`ContextManager.calculate_token_usage` (lines 167-179): derives
`total_tokens`, `remaining_tokens` and `utilization_percent` from the
system/conversation counts and the configured maximum. -/
def mkTokenUsage (maxTok sysTok convTok : Nat) : TokenUsage :=
  { total_tokens := sysTok + convTok
    system_tokens := sysTok
    conversation_tokens := convTok
    remaining_tokens := maxTok - (sysTok + convTok)
    max_tokens := maxTok
    utilization_percent :=
      -- the exact value of `(total_tokens / max_tokens) * 100`; stated via
      -- `mkRat` so it evaluates in the kernel, and proven equal to the
      -- division form in the C6 theorem below
      if maxTok = 0 then 0 else mkRat ((sysTok + convTok) * 100) maxTok }

/-- `ContextManager.calculate_token_usage` with the token counter `tc`
standing for `count_tokens(·, model)`.  An empty system prompt counts as 0
(Python truthiness of the string); each message contributes
`tc role + tc content + 4`. -/
def calculate_token_usage (tc : String → Nat) (maxTok : Nat)
    (system_prompt : String) (messages : List Message) : TokenUsage :=
  let sysTok := if system_prompt = "" then 0 else tc system_prompt
  let convTok := messages.foldl (fun acc m => acc + tc m.role + tc m.content + 4) 0
  mkTokenUsage maxTok sysTok convTok

/-! ### Python string and slice helpers

Lean's `String` is a structure over `List Char`; the helpers below work on
that list directly so that every operation is kernel-computable.  Python
`s.lower()` is modelled ASCII-wise by `Char.toLower` (all inputs of interest
are ASCII). -/

/-- Python `s.lower()`. -/
def strLower (s : String) : String := ⟨s.data.map Char.toLower⟩

/-- Python `s[:n]` for a non-negative `n`. -/
def strTake (s : String) (n : Nat) : String := ⟨s.data.take n⟩

/-- Python `s[:k]` for an `int` slice bound `k` that may be negative
(`s[:-m]` keeps all but the last `m` characters). -/
def pyTakeInt (s : String) (k : Int) : String :=
  if k < 0 then strTake s (s.length - (-k).toNat) else strTake s k.toNat

/-- Python `l[-k:]` on lists: the last `k` elements, except that `k = 0`
yields the whole list (since `-0 == 0` and `l[0:]` is `l`). -/
def pyLastSlice (k : Nat) (l : List Message) : List Message :=
  if k = 0 then l else l.drop (l.length - k)

/-- Python `l[:-k]` on lists: all but the last `k` elements, except that
`k = 0` yields the empty list (since `-0 == 0` and `l[:0]` is `[]`). -/
def pyDropLast (k : Nat) (l : List Message) : List Message :=
  if k = 0 then [] else l.take (l.length - k)

/-! ### MessageSummarizer (`memory_manager.py` lines 59-120) -/

/-- Word characters of the regex `\w` (ASCII fragment). -/
def isWordChar (c : Char) : Bool := c.isAlphanum || c == '_'

/-- Python `pat in s`: substring occurrence test. -/
def containsSub (s pat : String) : Bool :=
  s.data.tails.any (fun t => pat.data.isPrefixOf t)

/-- The fixed interrogative keyword test of `summarize_messages` line 83,
applied to the lower-cased content. -/
def questionLike (contentLower : String) : Bool :=
  ["what", "how", "why", "when", "where", "can you", "tell me"].any
    (fun kw => containsSub contentLower kw)

/-- Python `content[:n] + "..." if len(content) > n else content`
(lines 84 and 93). -/
def pyTrunc (n : Nat) (s : String) : String :=
  if s.length > n then strTake s n ++ "..." else s

/-- Maximal runs of word characters, i.e. `re.findall(r'\b\w+\b', s)`.
`acc` holds the current (reversed) run. -/
def wordRunsAux : List Char → List Char → List (List Char)
  | [], acc => if acc.isEmpty then [] else [acc.reverse]
  | c :: cs, acc =>
    if isWordChar c then wordRunsAux cs (c :: acc)
    else if acc.isEmpty then wordRunsAux cs [] else acc.reverse :: wordRunsAux cs []

/-- `re.findall(r'\b\w+\b', s)` as a list of strings. -/
def wordRuns (s : String) : List String :=
  (wordRunsAux s.data []).map (fun l => ⟨l⟩)

/-- Insert, in first-occurrence order, the words of `ws` longer than 4
characters that are not yet present (line 90; the Python code stores the
topics in a `set`, whose iteration order is unspecified — the spec fixes
first-occurrence order as canonical and the embedding follows it). -/
def addTopics (topics : List String) (ws : List String) : List String :=
  ws.foldl
    (fun ts w => if w.length > 4 && !(ts.contains w) then ts ++ [w] else ts)
    topics

/-- The extraction pass of `summarize_messages` (lines 74-93): accumulate
`user_questions`, `topics` and `assistant_responses` over the messages. -/
def extractInfo (messages : List Message) :
    List String × List String × List String :=
  messages.foldl
    (fun acc m =>
      let contentLower := strLower m.content
      if m.role == "user" then
        (acc.1 ++ [if questionLike contentLower then pyTrunc 100 m.content
                   else "User input"],
         addTopics acc.2.1 (wordRuns contentLower),
         acc.2.2)
      else if m.role == "assistant" then
        (acc.1, acc.2.1, acc.2.2 ++ [pyTrunc 150 m.content])
      else acc)
    ([], [], [])

/-- The composed summary sentences joined with single spaces (lines 96-108),
before length truncation and before the fixed return prefix. -/
def summaryBody (messages : List Message) : String :=
  let info := extractInfo messages
  let parts :=
    (if !info.1.isEmpty then
      ["Previous discussion covered " ++ toString info.1.length ++
        " user questions including: " ++ String.intercalate ", " (info.1.take 3)]
     else [])
    ++
    (if !info.2.1.isEmpty then
      ["Topics discussed: " ++ String.intercalate ", " (info.2.1.take 5)]
     else [])
    ++
    (if !info.2.2.isEmpty then
      ["Assistant provided " ++ toString info.2.2.length ++
        " responses with guidance and information."]
     else [])
  String.intercalate " " parts

/-- `MessageSummarizer.summarize_messages` (lines 65-115).  The Python
default argument `target_tokens = 500` is passed explicitly at the one call
site.  Truncation is to `target_tokens * 4` characters, via the Python slice
`summary[:max_chars-3]` whose bound may be negative. -/
def summarize_messages (messages : List Message) (target_tokens : Nat) : String :=
  if messages.isEmpty then ""
  else
    let summary := summaryBody messages
    let maxChars := target_tokens * 4
    let summary :=
      if summary.length > maxChars then
        pyTakeInt summary ((maxChars : Int) - 3) ++ "..."
      else summary
    "Summary of earlier conversation: " ++ summary

/-- `MessageSummarizer.should_summarize` (lines 117-120): auto-summarization
enabled AND conversation tokens above the threshold. -/
def should_summarize (cfg : MemoryConfig) (u : TokenUsage) : Bool :=
  cfg.enable_auto_summarization &&
    decide (u.conversation_tokens > cfg.summarize_threshold)

/-! ### ContextManager strategies (`memory_manager.py` lines 181-315)

The `while` loops become structurally recursive helpers over the message
list; they receive the scalar config fields they read (`maxTok`,
`minKeep`) rather than the whole record. -/

/-- The loop of `_truncate_oldest` (lines 239-247): while more than
`minKeep` messages remain and the usage is over the hard limit, drop two
messages from the front if at least two remain, otherwise one. -/
def truncLoop (tc : String → Nat) (maxTok minKeep : Nat) (sp : String) :
    List Message → List Message
  | [] => []
  | m :: rest =>
    if minKeep < (m :: rest).length
        && (calculate_token_usage tc maxTok sp (m :: rest)).is_over_limit then
      match rest with
      | [] => []  -- dropped the single message; the loop re-check on [] exits
      | _ :: rest2 => truncLoop tc maxTok minKeep sp rest2
    else m :: rest

/-- `ContextManager._truncate_oldest` (lines 230-249). -/
def truncate_oldest (tc : String → Nat) (cfg : MemoryConfig)
    (system_prompt : String) (messages : List Message) :
    String × List Message :=
  if messages.length ≤ cfg.min_messages_to_keep then (system_prompt, messages)
  else
    (system_prompt,
     truncLoop tc cfg.max_context_tokens cfg.min_messages_to_keep
       system_prompt messages)

/-- `ContextManager._summarize_oldest` (lines 251-282). -/
def summarize_oldest (tc : String → Nat) (cfg : MemoryConfig)
    (system_prompt : String) (messages : List Message) :
    String × List Message :=
  if messages.length ≤ cfg.min_messages_to_keep then (system_prompt, messages)
  else
    let u := calculate_token_usage tc cfg.max_context_tokens system_prompt messages
    if !should_summarize cfg u then (system_prompt, messages)
    else
      let keep := max cfg.min_messages_to_keep (messages.length / 2)
      let older := pyDropLast keep messages
      if older.isEmpty then (system_prompt, messages)
      else
        let summaryText := summarize_messages older 500
        (system_prompt,
         ⟨"system", "[Context Summary] " ++ summaryText⟩ :: pyLastSlice keep messages)

/-- The loop of `_keep_recent` (lines 296-298): while more than one message
remains and the current usage `u` is over the limit, drop the front message
and recompute. -/
def keepLoop (tc : String → Nat) (maxTok : Nat) (sp : String) :
    List Message → TokenUsage → List Message
  | m :: m2 :: rest, u =>
    if u.is_over_limit then
      keepLoop tc maxTok sp (m2 :: rest)
        (calculate_token_usage tc maxTok sp (m2 :: rest))
    else m :: m2 :: rest
  | ms, _ => ms

/-- `ContextManager._keep_recent` (lines 284-300). -/
def keep_recent (tc : String → Nat) (cfg : MemoryConfig)
    (system_prompt : String) (messages : List Message) :
    String × List Message :=
  let recent :=
    if messages.length > cfg.min_messages_to_keep then
      pyLastSlice cfg.min_messages_to_keep messages
    else messages
  let u := calculate_token_usage tc cfg.max_context_tokens system_prompt recent
  (system_prompt, keepLoop tc cfg.max_context_tokens system_prompt recent u)

/-- `ContextManager._sliding_window` (lines 302-315). -/
def sliding_window (tc : String → Nat) (cfg : MemoryConfig)
    (system_prompt : String) (messages : List Message) :
    String × List Message :=
  let r := keep_recent tc cfg system_prompt messages
  let u := calculate_token_usage tc cfg.max_context_tokens r.1 r.2
  if u.is_over_limit && decide (messages.length > r.2.length) then
    summarize_oldest tc cfg system_prompt messages
  else r

/-- `ContextManager.optimize_context` (lines 181-228), happy path: if the
usage is not near the limit, return the inputs unchanged; otherwise dispatch
on the configured strategy.  (The Python `else` default branch duplicates
the sliding-window case and is unreachable for the closed enum.)  The
exception-recovery path is modelled separately by `optimize_context_py`
below. -/
def optimize_context (tc : String → Nat) (cfg : MemoryConfig)
    (system_prompt : String) (messages : List Message) :
    String × List Message :=
  let u := calculate_token_usage tc cfg.max_context_tokens system_prompt messages
  if !u.is_near_limit then (system_prompt, messages)
  else
    match cfg.strategy with
    | .truncate_oldest => truncate_oldest tc cfg system_prompt messages
    | .summarize_oldest => summarize_oldest tc cfg system_prompt messages
    | .keep_recent => keep_recent tc cfg system_prompt messages
    | .sliding_window => sliding_window tc cfg system_prompt messages

/-! ### Exception-aware layer

Python code inside the `try` block of `optimize_context` can raise (for
example from the tokenizer); the `except` clause catches every exception and
returns the original pair (lines 223-228).  To model this, the same
functions are embedded once more over a fallible token counter
`tcE : String → Except Unit Nat`; an `Except.error` models a raised
exception propagating out of the corresponding Python expression. -/

/-- Fallible `calculate_token_usage`: any token-count failure propagates. -/
def calculate_token_usageE (tcE : String → Except Unit Nat) (maxTok : Nat)
    (system_prompt : String) (messages : List Message) :
    Except Unit TokenUsage := do
  let sysTok ← if system_prompt = "" then pure 0 else tcE system_prompt
  let convTok ← messages.foldlM
    (fun acc m => do pure (acc + (← tcE m.role) + (← tcE m.content) + 4)) 0
  pure (mkTokenUsage maxTok sysTok convTok)

/-- Fallible loop of `_truncate_oldest`; the usage recomputation inside the
loop can raise. -/
def truncLoopE (tcE : String → Except Unit Nat) (maxTok minKeep : Nat)
    (sp : String) : List Message → Except Unit (List Message)
  | [] => pure []
  | m :: rest =>
    if minKeep < (m :: rest).length then do
      let u ← calculate_token_usageE tcE maxTok sp (m :: rest)
      if u.is_over_limit then
        match rest with
        | [] => pure []
        | _ :: rest2 => truncLoopE tcE maxTok minKeep sp rest2
      else pure (m :: rest)
    else pure (m :: rest)

/-- Fallible `_truncate_oldest`. -/
def truncate_oldestE (tcE : String → Except Unit Nat) (cfg : MemoryConfig)
    (system_prompt : String) (messages : List Message) :
    Except Unit (String × List Message) :=
  if messages.length ≤ cfg.min_messages_to_keep then pure (system_prompt, messages)
  else do
    let ms ← truncLoopE tcE cfg.max_context_tokens cfg.min_messages_to_keep
      system_prompt messages
    pure (system_prompt, ms)

/-- Fallible `_summarize_oldest` (the rule-based summarizer itself is pure). -/
def summarize_oldestE (tcE : String → Except Unit Nat) (cfg : MemoryConfig)
    (system_prompt : String) (messages : List Message) :
    Except Unit (String × List Message) :=
  if messages.length ≤ cfg.min_messages_to_keep then pure (system_prompt, messages)
  else do
    let u ← calculate_token_usageE tcE cfg.max_context_tokens system_prompt messages
    if !should_summarize cfg u then pure (system_prompt, messages)
    else
      let keep := max cfg.min_messages_to_keep (messages.length / 2)
      let older := pyDropLast keep messages
      if older.isEmpty then pure (system_prompt, messages)
      else
        let summaryText := summarize_messages older 500
        pure (system_prompt,
          ⟨"system", "[Context Summary] " ++ summaryText⟩ :: pyLastSlice keep messages)

/-- Fallible loop of `_keep_recent`. -/
def keepLoopE (tcE : String → Except Unit Nat) (maxTok : Nat) (sp : String) :
    List Message → TokenUsage → Except Unit (List Message)
  | m :: m2 :: rest, u =>
    if u.is_over_limit then do
      let u' ← calculate_token_usageE tcE maxTok sp (m2 :: rest)
      keepLoopE tcE maxTok sp (m2 :: rest) u'
    else pure (m :: m2 :: rest)
  | ms, _ => pure ms

/-- Fallible `_keep_recent`; note that the usage is computed once before the
loop (line 293), so a tokenizer failure can occur even when the loop body
never runs. -/
def keep_recentE (tcE : String → Except Unit Nat) (cfg : MemoryConfig)
    (system_prompt : String) (messages : List Message) :
    Except Unit (String × List Message) := do
  let recent :=
    if messages.length > cfg.min_messages_to_keep then
      pyLastSlice cfg.min_messages_to_keep messages
    else messages
  let u ← calculate_token_usageE tcE cfg.max_context_tokens system_prompt recent
  let ms ← keepLoopE tcE cfg.max_context_tokens system_prompt recent u
  pure (system_prompt, ms)

/-- Fallible `_sliding_window`. -/
def sliding_windowE (tcE : String → Except Unit Nat) (cfg : MemoryConfig)
    (system_prompt : String) (messages : List Message) :
    Except Unit (String × List Message) := do
  let r ← keep_recentE tcE cfg system_prompt messages
  let u ← calculate_token_usageE tcE cfg.max_context_tokens r.1 r.2
  if u.is_over_limit && decide (messages.length > r.2.length) then
    summarize_oldestE tcE cfg system_prompt messages
  else pure r

/-- The body of the `try` block of `optimize_context` (lines 190-221):
usage computation, possible early identity return, strategy dispatch, and
the final usage recomputation performed for the log call (line 212), which
can itself raise. -/
def optimize_bodyE (tcE : String → Except Unit Nat) (cfg : MemoryConfig)
    (system_prompt : String) (messages : List Message) :
    Except Unit (String × List Message) := do
  let u ← calculate_token_usageE tcE cfg.max_context_tokens system_prompt messages
  if !u.is_near_limit then pure (system_prompt, messages)
  else do
    let r ← match cfg.strategy with
      | .truncate_oldest => truncate_oldestE tcE cfg system_prompt messages
      | .summarize_oldest => summarize_oldestE tcE cfg system_prompt messages
      | .keep_recent => keep_recentE tcE cfg system_prompt messages
      | .sliding_window => sliding_windowE tcE cfg system_prompt messages
    let _ ← calculate_token_usageE tcE cfg.max_context_tokens r.1 r.2
    pure r

/-- `optimize_context` as seen by the Python caller: the `try/except`
boundary.  Any error of the body degrades to the original pair; the function
is total, so nothing is ever raised past it. -/
def optimize_context_py (tcE : String → Except Unit Nat) (cfg : MemoryConfig)
    (system_prompt : String) (messages : List Message) :
    String × List Message :=
  match optimize_bodyE tcE cfg system_prompt messages with
  | .ok r => r
  | .error _ => (system_prompt, messages)

/-! ### Helper lemmas -/

/-- String append acts as list append on the underlying data. -/
theorem strData_append (a b : String) : (a ++ b).data = a.data ++ b.data := by
  cases a
  cases b
  rfl

/-- String append is associative. -/
theorem strAppend_assoc (a b c : String) : a ++ b ++ c = a ++ (b ++ c) := by
  cases a with
  | mk da =>
    cases b with
    | mk db =>
      cases c with
      | mk dc => exact congrArg String.mk (List.append_assoc da db dc)

/-- Length of string append. -/
theorem strLength_append (a b : String) : (a ++ b).length = a.length + b.length := by
  cases a with
  | mk da =>
    cases b with
    | mk db => exact List.length_append da db

/-- Length of `strTake`. -/
theorem strTake_length (s : String) (n : Nat) :
    (strTake s n).length = min n s.length := by
  cases s with
  | mk d => exact List.length_take n d

/-- Taking at most the length of the left part of an append stays in it. -/
theorem strTake_append_left (a b : String) (n : Nat) (h : n ≤ a.length) :
    strTake (a ++ b) n = strTake a n := by
  simp [strTake, strData_append, List.take_append_of_le_length h]

/-- The loop of `_truncate_oldest` always returns a suffix of its input. -/
theorem truncLoop_suffix (tc : String → Nat) (maxTok minKeep : Nat) (sp : String) :
    ∀ msgs : List Message, truncLoop tc maxTok minKeep sp msgs <:+ msgs
  | [] => by simp [truncLoop]
  | [m] => by
    unfold truncLoop
    split
    · exact List.nil_suffix
    · exact List.suffix_refl _
  | m :: m2 :: rest => by
    have ih := truncLoop_suffix tc maxTok minKeep sp rest
    unfold truncLoop
    split
    · exact ih.trans ((List.suffix_cons m2 rest).trans (List.suffix_cons m (m2 :: rest)))
    · exact List.suffix_refl _

/-- The loop of `_truncate_oldest` either leaves the list unchanged or stops
at no fewer than `minKeep - 1` messages (it can go exactly one below the
floor by removing a pair). -/
theorem truncLoop_floor (tc : String → Nat) (maxTok minKeep : Nat) (sp : String) :
    ∀ msgs : List Message,
      truncLoop tc maxTok minKeep sp msgs = msgs
      ∨ minKeep - 1 ≤ (truncLoop tc maxTok minKeep sp msgs).length
  | [] => Or.inl (by simp [truncLoop])
  | [m] => by
    unfold truncLoop
    split
    · next h =>
      right
      simp only [List.length_cons, List.length_nil, Bool.and_eq_true, decide_eq_true_eq] at h
      show minKeep - 1 ≤ ([] : List Message).length
      simp only [List.length_nil]
      omega
    · exact Or.inl rfl
  | m :: m2 :: rest => by
    unfold truncLoop
    split
    · next h =>
      right
      simp only [List.length_cons, Bool.and_eq_true, decide_eq_true_eq] at h
      show minKeep - 1 ≤ (truncLoop tc maxTok minKeep sp rest).length
      rcases truncLoop_floor tc maxTok minKeep sp rest with h2 | h2
      · rw [h2]
        omega
      · exact h2
    · exact Or.inl rfl

/-- The loop of `_keep_recent` always returns a suffix of its input. -/
theorem keepLoop_suffix (tc : String → Nat) (maxTok : Nat) (sp : String) :
    ∀ (msgs : List Message) (u : TokenUsage),
      keepLoop tc maxTok sp msgs u <:+ msgs
  | [], _ => by simp [keepLoop]
  | [m], _ => by simp [keepLoop]
  | m :: m2 :: rest, u => by
    have ih := keepLoop_suffix tc maxTok sp (m2 :: rest)
      (calculate_token_usage tc maxTok sp (m2 :: rest))
    unfold keepLoop
    split
    · exact ih.trans (List.suffix_cons m (m2 :: rest))
    · exact List.suffix_refl _

/-- `_keep_recent` never returns more messages than it was given. -/
theorem keep_recent_length_le (tc : String → Nat) (cfg : MemoryConfig)
    (sp : String) (msgs : List Message) :
    (keep_recent tc cfg sp msgs).2.length ≤ msgs.length := by
  unfold keep_recent
  dsimp only
  have hrec : ∀ recent : List Message, recent <:+ msgs →
      (keepLoop tc cfg.max_context_tokens sp recent
        (calculate_token_usage tc cfg.max_context_tokens sp recent)).length ≤ msgs.length :=
    fun recent h => le_trans ((keepLoop_suffix _ _ _ recent _).length_le) h.length_le
  split
  · next h =>
    refine hrec _ ?_
    unfold pyLastSlice
    split
    · exact List.suffix_refl _
    · exact List.drop_suffix _ _
  · exact hrec _ (List.suffix_refl _)

/-- `_summarize_oldest` never returns more messages than it was given. -/
theorem summarize_oldest_length_le (tc : String → Nat) (cfg : MemoryConfig)
    (sp : String) (msgs : List Message) :
    (summarize_oldest tc cfg sp msgs).2.length ≤ msgs.length := by
  unfold summarize_oldest
  dsimp only
  split
  · exact le_refl _
  · split
    · exact le_refl _
    · split
      · exact le_refl _
      · next hlen _ holder =>
        simp only [not_le] at hlen
        simp only [List.isEmpty_iff, pyDropLast] at holder
        set keep := max cfg.min_messages_to_keep (msgs.length / 2) with hkeep
        by_cases hk : keep = 0
        · simp [hk] at holder
        · rw [if_neg hk] at holder
          have htake : msgs.length - keep ≠ 0 ∧ msgs ≠ [] := by
            constructor
            · intro h0
              exact holder (by simp [h0])
            · intro h0
              exact holder (by simp [h0])
          simp only [List.length_cons, pyLastSlice, if_neg hk, List.length_drop]
          omega

/-- `_truncate_oldest` never returns more messages than it was given. -/
theorem truncate_oldest_length_le (tc : String → Nat) (cfg : MemoryConfig)
    (sp : String) (msgs : List Message) :
    (truncate_oldest tc cfg sp msgs).2.length ≤ msgs.length := by
  unfold truncate_oldest
  split
  · exact le_refl _
  · exact (truncLoop_suffix _ _ _ _ _).length_le

/-- `_sliding_window` never returns more messages than it was given. -/
theorem sliding_window_length_le (tc : String → Nat) (cfg : MemoryConfig)
    (sp : String) (msgs : List Message) :
    (sliding_window tc cfg sp msgs).2.length ≤ msgs.length := by
  unfold sliding_window
  dsimp only
  split
  · exact summarize_oldest_length_le tc cfg sp msgs
  · exact keep_recent_length_le tc cfg sp msgs

/-- `_truncate_oldest` returns the system prompt unchanged. -/
theorem truncate_oldest_fst (tc : String → Nat) (cfg : MemoryConfig)
    (sp : String) (msgs : List Message) :
    (truncate_oldest tc cfg sp msgs).1 = sp := by
  unfold truncate_oldest
  split <;> rfl

/-- `_summarize_oldest` returns the system prompt unchanged. -/
theorem summarize_oldest_fst (tc : String → Nat) (cfg : MemoryConfig)
    (sp : String) (msgs : List Message) :
    (summarize_oldest tc cfg sp msgs).1 = sp := by
  unfold summarize_oldest
  dsimp only
  split
  · rfl
  · split
    · rfl
    · split <;> rfl

/-- `_keep_recent` returns the system prompt unchanged. -/
theorem keep_recent_fst (tc : String → Nat) (cfg : MemoryConfig)
    (sp : String) (msgs : List Message) :
    (keep_recent tc cfg sp msgs).1 = sp := rfl

/-- `_sliding_window` returns the system prompt unchanged. -/
theorem sliding_window_fst (tc : String → Nat) (cfg : MemoryConfig)
    (sp : String) (msgs : List Message) :
    (sliding_window tc cfg sp msgs).1 = sp := by
  unfold sliding_window
  dsimp only
  split
  · exact summarize_oldest_fst tc cfg sp msgs
  · exact keep_recent_fst tc cfg sp msgs

/-- `optimize_context` (happy path) returns the system prompt unchanged. -/
theorem optimize_context_fst (tc : String → Nat) (cfg : MemoryConfig)
    (sp : String) (msgs : List Message) :
    (optimize_context tc cfg sp msgs).1 = sp := by
  unfold optimize_context
  dsimp only
  split
  · rfl
  · split
    · exact truncate_oldest_fst tc cfg sp msgs
    · exact summarize_oldest_fst tc cfg sp msgs
    · exact keep_recent_fst tc cfg sp msgs
    · exact sliding_window_fst tc cfg sp msgs

/-- Inversion for `Except` bind hitting a success. -/
theorem exceptBind_ok {α β : Type} {x : Except Unit α} {f : α → Except Unit β}
    {b : β} (h : x >>= f = .ok b) : ∃ a, x = .ok a ∧ f a = .ok b := by
  cases x with
  | error e => exact absurd h (by intro hc; cases hc)
  | ok a => exact ⟨a, rfl, h⟩

/-- Successful results of the fallible `_truncate_oldest` keep the prompt. -/
theorem truncate_oldestE_fst (tcE : String → Except Unit Nat) (cfg : MemoryConfig)
    (sp : String) (msgs : List Message) (r : String × List Message)
    (h : truncate_oldestE tcE cfg sp msgs = .ok r) : r.1 = sp := by
  unfold truncate_oldestE at h
  split at h
  · cases h
    rfl
  · obtain ⟨ms, _, h2⟩ := exceptBind_ok h
    cases h2
    rfl

/-- Successful results of the fallible `_summarize_oldest` keep the prompt. -/
theorem summarize_oldestE_fst (tcE : String → Except Unit Nat) (cfg : MemoryConfig)
    (sp : String) (msgs : List Message) (r : String × List Message)
    (h : summarize_oldestE tcE cfg sp msgs = .ok r) : r.1 = sp := by
  unfold summarize_oldestE at h
  split at h
  · cases h
    rfl
  · obtain ⟨u, _, h2⟩ := exceptBind_ok h
    dsimp only at h2
    split at h2
    · cases h2
      rfl
    · split at h2 <;> (cases h2; rfl)

/-- Successful results of the fallible `_keep_recent` keep the prompt. -/
theorem keep_recentE_fst (tcE : String → Except Unit Nat) (cfg : MemoryConfig)
    (sp : String) (msgs : List Message) (r : String × List Message)
    (h : keep_recentE tcE cfg sp msgs = .ok r) : r.1 = sp := by
  unfold keep_recentE at h
  obtain ⟨u, _, h2⟩ := exceptBind_ok h
  obtain ⟨ms, _, h3⟩ := exceptBind_ok h2
  cases h3
  rfl

/-- Successful results of the fallible `_sliding_window` keep the prompt. -/
theorem sliding_windowE_fst (tcE : String → Except Unit Nat) (cfg : MemoryConfig)
    (sp : String) (msgs : List Message) (r : String × List Message)
    (h : sliding_windowE tcE cfg sp msgs = .ok r) : r.1 = sp := by
  unfold sliding_windowE at h
  obtain ⟨r0, hr0, h2⟩ := exceptBind_ok h
  obtain ⟨u, _, h3⟩ := exceptBind_ok h2
  split at h3
  · exact summarize_oldestE_fst tcE cfg sp msgs r h3
  · cases h3
    exact keep_recentE_fst tcE cfg sp msgs _ hr0

/-- Successful results of the `try`-block body keep the prompt. -/
theorem optimize_bodyE_fst (tcE : String → Except Unit Nat) (cfg : MemoryConfig)
    (sp : String) (msgs : List Message) (r : String × List Message)
    (h : optimize_bodyE tcE cfg sp msgs = .ok r) : r.1 = sp := by
  unfold optimize_bodyE at h
  obtain ⟨u, _, h2⟩ := exceptBind_ok h
  dsimp only at h2
  split at h2
  · cases h2
    rfl
  · split at h2
    · obtain ⟨r0, hr0, h3⟩ := exceptBind_ok h2
      obtain ⟨_, _, h4⟩ := exceptBind_ok h3
      cases h4
      exact truncate_oldestE_fst tcE cfg sp msgs _ hr0
    · obtain ⟨r0, hr0, h3⟩ := exceptBind_ok h2
      obtain ⟨_, _, h4⟩ := exceptBind_ok h3
      cases h4
      exact summarize_oldestE_fst tcE cfg sp msgs _ hr0
    · obtain ⟨r0, hr0, h3⟩ := exceptBind_ok h2
      obtain ⟨_, _, h4⟩ := exceptBind_ok h3
      cases h4
      exact keep_recentE_fst tcE cfg sp msgs _ hr0
    · obtain ⟨r0, hr0, h3⟩ := exceptBind_ok h2
      obtain ⟨_, _, h4⟩ := exceptBind_ok h3
      cases h4
      exact sliding_windowE_fst tcE cfg sp msgs _ hr0

/-! ### Claim theorems -/

/-- C6: every `TokenUsage` produced by `calculate_token_usage` satisfies the
documented invariants: `total_tokens = system_tokens + conversation_tokens`;
`remaining_tokens = max(max_tokens - total_tokens, 0)`;
`utilization_percent = total_tokens / max_tokens * 100` (0 when `max_tokens`
is 0); `is_near_limit` iff `utilization_percent > 80`; `is_over_limit` iff
`total_tokens > max_tokens`. -/
theorem calculate_token_usage_invariants (tc : String → Nat) (maxTok : Nat)
    (sp : String) (msgs : List Message) :
    let u := calculate_token_usage tc maxTok sp msgs
    u.total_tokens = u.system_tokens + u.conversation_tokens
    ∧ (u.remaining_tokens : Int) = max ((u.max_tokens : Int) - (u.total_tokens : Int)) 0
    ∧ u.utilization_percent =
        (if u.max_tokens = 0 then 0
         else (u.total_tokens : Rat) / (u.max_tokens : Rat) * 100)
    ∧ (u.is_near_limit = true ↔ u.utilization_percent > 80)
    ∧ (u.is_over_limit = true ↔ u.total_tokens > u.max_tokens) := by
  dsimp only [calculate_token_usage, mkTokenUsage, TokenUsage.is_near_limit,
    TokenUsage.is_over_limit]
  refine ⟨rfl, ?_, ?_, ?_, ?_⟩
  · omega
  · split
    · rfl
    · rw [Rat.mkRat_eq_div]
      push_cast
      ring
  · exact decide_eq_true_iff
  · exact decide_eq_true_iff

/-- C2: the `try/except` boundary of `optimize_context` never propagates an
error to the caller (`optimize_context_py` is total), and whenever the body
raises, the original `(system_prompt, messages)` pair is returned unchanged;
whenever the body succeeds, its result is passed through. -/
theorem optimize_context_never_raises (tcE : String → Except Unit Nat)
    (cfg : MemoryConfig) (sp : String) (msgs : List Message) :
    (∀ e : Unit, optimize_bodyE tcE cfg sp msgs = .error e →
      optimize_context_py tcE cfg sp msgs = (sp, msgs))
    ∧ ∀ r : String × List Message, optimize_bodyE tcE cfg sp msgs = .ok r →
      optimize_context_py tcE cfg sp msgs = r := by
  constructor
  · intro e h
    unfold optimize_context_py
    rw [h]
  · intro r h
    unfold optimize_context_py
    rw [h]

/-- Witness for C2: a token counter that always raises makes the body fail,
and `optimize_context` then returns the original pair. -/
theorem optimize_context_never_raises_witness :
    optimize_bodyE (fun _ => .error ())
        ⟨4000, .sliding_window, true, 3000, 4, true, "gpt-3.5-turbo", 200⟩
        "sys" [⟨"user", "hello"⟩] = .error ()
    ∧ optimize_context_py (fun _ => .error ())
        ⟨4000, .sliding_window, true, 3000, 4, true, "gpt-3.5-turbo", 200⟩
        "sys" [⟨"user", "hello"⟩] = ("sys", [⟨"user", "hello"⟩]) :=
  ⟨rfl, (optimize_context_never_raises _ _ _ _).1 () rfl⟩

/-- C8: `optimize_context` never returns more messages than it was given,
on every strategy and on the under-threshold identity path. -/
theorem optimize_context_monotonic_shrink (tc : String → Nat)
    (cfg : MemoryConfig) (sp : String) (msgs : List Message) :
    (optimize_context tc cfg sp msgs).2.length ≤ msgs.length := by
  unfold optimize_context
  dsimp only
  split
  · exact le_refl _
  · split
    · exact truncate_oldest_length_le tc cfg sp msgs
    · exact summarize_oldest_length_le tc cfg sp msgs
    · exact keep_recent_length_le tc cfg sp msgs
    · exact sliding_window_length_le tc cfg sp msgs

/-- C9: on every code path — the identity path, all four strategies, and the
exception-recovery path — the returned system prompt is exactly the input
system prompt. -/
theorem system_prompt_preserved (tc : String → Nat)
    (tcE : String → Except Unit Nat) (cfg : MemoryConfig)
    (sp : String) (msgs : List Message) :
    (optimize_context tc cfg sp msgs).1 = sp
    ∧ (truncate_oldest tc cfg sp msgs).1 = sp
    ∧ (summarize_oldest tc cfg sp msgs).1 = sp
    ∧ (keep_recent tc cfg sp msgs).1 = sp
    ∧ (sliding_window tc cfg sp msgs).1 = sp
    ∧ (optimize_context_py tcE cfg sp msgs).1 = sp := by
  refine ⟨optimize_context_fst tc cfg sp msgs, truncate_oldest_fst tc cfg sp msgs,
    summarize_oldest_fst tc cfg sp msgs, keep_recent_fst tc cfg sp msgs,
    sliding_window_fst tc cfg sp msgs, ?_⟩
  unfold optimize_context_py
  split
  · next r h => exact optimize_bodyE_fst tcE cfg sp msgs r h
  · rfl

/-- C10: two configurations that agree on everything except `summary_length`
produce identical `optimize_context` output on every input — the
summarization path calls `summarize_messages` with the fixed default target
of 500 tokens and never reads `summary_length`. -/
theorem optimize_context_ignores_summary_length (tc : String → Nat)
    (sp : String) (msgs : List Message) (c₁ c₂ : MemoryConfig)
    (h1 : c₁.max_context_tokens = c₂.max_context_tokens)
    (h2 : c₁.strategy = c₂.strategy)
    (h3 : c₁.preserve_system_prompt = c₂.preserve_system_prompt)
    (h4 : c₁.summarize_threshold = c₂.summarize_threshold)
    (h5 : c₁.min_messages_to_keep = c₂.min_messages_to_keep)
    (h6 : c₁.enable_auto_summarization = c₂.enable_auto_summarization)
    (h7 : c₁.summarization_model = c₂.summarization_model) :
    optimize_context tc c₁ sp msgs = optimize_context tc c₂ sp msgs := by
  cases c₁
  cases c₂
  simp only at h1 h2 h3 h4 h5 h6 h7
  subst h1 h2 h3 h4 h5 h6 h7
  rfl

/-- Witness for C10: two concrete configurations differing only in
`summary_length` (200 vs 999) give the same optimization result. -/
theorem optimize_context_ignores_summary_length_witness :
    optimize_context (fun _ => 1)
        ⟨100, .keep_recent, true, 3000, 4, true, "m", 200⟩ "s"
        (List.replicate 6 ⟨"user", "x"⟩)
      = optimize_context (fun _ => 1)
        ⟨100, .keep_recent, true, 3000, 4, true, "m", 999⟩ "s"
        (List.replicate 6 ⟨"user", "x"⟩) :=
  optimize_context_ignores_summary_length _ _ _ _ _ rfl rfl rfl rfl rfl rfl rfl

/-- C1 (amended): when the computed usage is not near the limit
(`utilization_percent ≤ 80`), `optimize_context` returns the input system
prompt and message sequence unchanged.  The original claim's weaker premise
`total_tokens ≤ max_context_tokens` does not suffice: see the
counterexample below. -/
theorem optimize_context_identity_below_near_limit (tc : String → Nat)
    (cfg : MemoryConfig) (sp : String) (msgs : List Message)
    (h : (calculate_token_usage tc cfg.max_context_tokens sp msgs).is_near_limit
      = false) :
    optimize_context tc cfg sp msgs = (sp, msgs) := by
  unfold optimize_context
  dsimp only
  rw [h]
  rfl

/-- Witness for C1 (amended): a small conversation far below the limit is
returned unchanged. -/
theorem optimize_context_identity_below_near_limit_witness :
    (calculate_token_usage (fun _ => 1) 4000 "hi" [⟨"user", "hello"⟩]).is_near_limit
      = false
    ∧ optimize_context (fun _ => 1)
        ⟨4000, .sliding_window, true, 3000, 4, true, "gpt-3.5-turbo", 200⟩
        "hi" [⟨"user", "hello"⟩] = ("hi", [⟨"user", "hello"⟩]) :=
  ⟨by decide, optimize_context_identity_below_near_limit _ _ _ _ (by decide)⟩

/-- Counterexample to C1 as stated: with 85 total tokens against a budget of
100 (`total_tokens ≤ max_context_tokens`), utilization is 85% > 80%, so the
keep-recent strategy runs and shrinks the five input messages to four — the
output sequence is not equal to the input. -/
theorem optimize_context_identity_cex :
    (calculate_token_usage (fun s => if s = "SYS" then 55 else 1) 100 "SYS"
        (List.replicate 5 ⟨"user", "x"⟩)).total_tokens ≤ 100
    ∧ (optimize_context (fun s => if s = "SYS" then 55 else 1)
        ⟨100, .keep_recent, true, 3000, 4, true, "gpt-3.5-turbo", 200⟩ "SYS"
        (List.replicate 5 ⟨"user", "x"⟩)).2
      ≠ List.replicate 5 ⟨"user", "x"⟩ := by
  constructor <;> decide

/-- C3 (amended): `_truncate_oldest` always returns a suffix of the original
sequence; it returns the input unchanged when the input is already at or
below the `min_messages_to_keep` floor; and otherwise the result never has
fewer than `min_messages_to_keep - 1` messages.  The original claim's floor
of `min_messages_to_keep` is off by one because the loop removes messages
two at a time: see the counterexample below. -/
theorem truncate_oldest_suffix_and_floor (tc : String → Nat)
    (cfg : MemoryConfig) (sp : String) (msgs : List Message) :
    (truncate_oldest tc cfg sp msgs).2 <:+ msgs
    ∧ (msgs.length ≤ cfg.min_messages_to_keep →
        (truncate_oldest tc cfg sp msgs).2 = msgs)
    ∧ (cfg.min_messages_to_keep < msgs.length →
        cfg.min_messages_to_keep - 1 ≤ (truncate_oldest tc cfg sp msgs).2.length) := by
  refine ⟨?_, ?_, ?_⟩
  · unfold truncate_oldest
    split
    · exact List.suffix_refl _
    · exact truncLoop_suffix tc _ _ sp msgs
  · intro hle
    unfold truncate_oldest
    rw [if_pos hle]
  · intro hlt
    unfold truncate_oldest
    rw [if_neg (by omega)]
    show cfg.min_messages_to_keep - 1 ≤
      (truncLoop tc cfg.max_context_tokens cfg.min_messages_to_keep sp msgs).length
    rcases truncLoop_floor tc cfg.max_context_tokens cfg.min_messages_to_keep sp msgs
      with h | h
    · rw [h]
      omega
    · exact h

/-- Witness for C3 (amended), at a concrete over-budget input with
`min_messages_to_keep = 4` and five messages. -/
theorem truncate_oldest_suffix_and_floor_witness :
    (truncate_oldest (fun _ => 1)
        ⟨1, .truncate_oldest, true, 3000, 4, true, "m", 200⟩ "s"
        (List.replicate 5 ⟨"user", "x"⟩)).2 <:+ List.replicate 5 ⟨"user", "x"⟩
    ∧ 4 - 1 ≤ (truncate_oldest (fun _ => 1)
        ⟨1, .truncate_oldest, true, 3000, 4, true, "m", 200⟩ "s"
        (List.replicate 5 ⟨"user", "x"⟩)).2.length :=
  ⟨(truncate_oldest_suffix_and_floor (fun _ => 1)
      ⟨1, .truncate_oldest, true, 3000, 4, true, "m", 200⟩ "s"
      (List.replicate 5 ⟨"user", "x"⟩)).1,
   (truncate_oldest_suffix_and_floor (fun _ => 1)
      ⟨1, .truncate_oldest, true, 3000, 4, true, "m", 200⟩ "s"
      (List.replicate 5 ⟨"user", "x"⟩)).2.2 (by decide)⟩

/-- Counterexample to C3 as stated: with `min_messages_to_keep = 4`, a
five-message conversation that stays over budget is truncated to three
messages — strictly below the floor — because the loop drops a pair. -/
theorem truncate_oldest_floor_cex :
    (truncate_oldest (fun _ => 1)
        ⟨1, .truncate_oldest, true, 3000, 4, true, "m", 200⟩ "s"
        (List.replicate 5 ⟨"user", "x"⟩)).2.length
      < (⟨1, .truncate_oldest, true, 3000, 4, true, "m", 200⟩ : MemoryConfig).min_messages_to_keep
    ∧ (⟨1, .truncate_oldest, true, 3000, 4, true, "m", 200⟩ : MemoryConfig).min_messages_to_keep
      < (List.replicate 5 (⟨"user", "x"⟩ : Message)).length := by
  constructor <;> decide

/-- C4 (amended): with more than `min_messages_to_keep` messages and a
non-empty older split, `_summarize_oldest` performs summarization exactly
when `enable_auto_summarization` is true AND
`conversation_tokens > summarize_threshold` (the code's `should_summarize`
is a conjunction, not the disjunction of the original claim); in every
other case it returns the input unchanged. -/
theorem summarize_oldest_trigger_iff (tc : String → Nat) (cfg : MemoryConfig)
    (sp : String) (msgs : List Message)
    (hlen : cfg.min_messages_to_keep < msgs.length)
    (holder : pyDropLast (max cfg.min_messages_to_keep (msgs.length / 2)) msgs ≠ []) :
    (cfg.enable_auto_summarization = true
        ∧ (calculate_token_usage tc cfg.max_context_tokens sp msgs).conversation_tokens
            > cfg.summarize_threshold →
      (summarize_oldest tc cfg sp msgs).2 =
        ⟨"system", "[Context Summary] "
            ++ summarize_messages
                (pyDropLast (max cfg.min_messages_to_keep (msgs.length / 2)) msgs) 500⟩
          :: pyLastSlice (max cfg.min_messages_to_keep (msgs.length / 2)) msgs)
    ∧ (¬(cfg.enable_auto_summarization = true
        ∧ (calculate_token_usage tc cfg.max_context_tokens sp msgs).conversation_tokens
            > cfg.summarize_threshold) →
      (summarize_oldest tc cfg sp msgs).2 = msgs) := by
  have hempty : (pyDropLast (max cfg.min_messages_to_keep (msgs.length / 2)) msgs).isEmpty
      = false := by
    simp [List.isEmpty_iff, holder]
  constructor
  · rintro ⟨he, hc⟩
    have hss : should_summarize cfg
        (calculate_token_usage tc cfg.max_context_tokens sp msgs) = true := by
      simp [should_summarize, he, hc]
    unfold summarize_oldest
    dsimp only
    rw [if_neg (by omega), hss, hempty]
    rfl
  · intro hno
    have hss : should_summarize cfg
        (calculate_token_usage tc cfg.max_context_tokens sp msgs) = false := by
      cases hb : should_summarize cfg
        (calculate_token_usage tc cfg.max_context_tokens sp msgs) with
      | false => rfl
      | true =>
        exfalso
        apply hno
        simpa [should_summarize, Bool.and_eq_true, decide_eq_true_eq] using hb
    unfold summarize_oldest
    dsimp only
    rw [if_neg (by omega), hss]
    rfl

/-- Witness for C4 (amended): a concrete triggering input (threshold 0,
auto-summarization on, three messages against a floor of one). -/
theorem summarize_oldest_trigger_iff_witness :
    (summarize_oldest (fun _ => 1)
        ⟨100, .summarize_oldest, true, 0, 1, true, "m", 200⟩ "s"
        [⟨"user", "a"⟩, ⟨"assistant", "b"⟩, ⟨"user", "c"⟩]).2 =
      ⟨"system", "[Context Summary] "
          ++ summarize_messages
              (pyDropLast 1 [⟨"user", "a"⟩, ⟨"assistant", "b"⟩, ⟨"user", "c"⟩]) 500⟩
        :: pyLastSlice 1 [⟨"user", "a"⟩, ⟨"assistant", "b"⟩, ⟨"user", "c"⟩] :=
  (summarize_oldest_trigger_iff (fun _ => 1)
      ⟨100, .summarize_oldest, true, 0, 1, true, "m", 200⟩ "s"
      [⟨"user", "a"⟩, ⟨"assistant", "b"⟩, ⟨"user", "c"⟩]
      (by decide) (by decide)).1 ⟨rfl, by decide⟩

/-- Counterexample to C4 as stated: `enable_auto_summarization` is true (so
the claimed disjunction holds), the floor and older-split preconditions
hold, yet the conversation tokens (30) do not exceed the threshold (1000)
and `_summarize_oldest` returns the input unchanged — no summarization is
performed. -/
theorem summarize_oldest_disjunction_cex :
    (⟨100, .summarize_oldest, true, 1000, 1, true, "m", 200⟩ : MemoryConfig).enable_auto_summarization
      = true
    ∧ (⟨100, .summarize_oldest, true, 1000, 1, true, "m", 200⟩ : MemoryConfig).min_messages_to_keep
      < (List.replicate 5 (⟨"user", "x"⟩ : Message)).length
    ∧ pyDropLast (max 1 (5 / 2)) (List.replicate 5 ⟨"user", "x"⟩) ≠ []
    ∧ (summarize_oldest (fun _ => 1)
        ⟨100, .summarize_oldest, true, 1000, 1, true, "m", 200⟩ "s"
        (List.replicate 5 ⟨"user", "x"⟩)).2 = List.replicate 5 ⟨"user", "x"⟩ := by
  refine ⟨rfl, by decide, by decide, by decide⟩

/-- C5: whenever `_summarize_oldest` actually summarizes (floor exceeded,
`should_summarize` true, non-empty older split), the first returned message
has role `"system"` with content starting with `"[Context Summary]"`, and
the remaining messages are exactly the last
`max(min_messages_to_keep, len/2)` input messages, unchanged and in order. -/
theorem summarize_oldest_triggered_shape (tc : String → Nat)
    (cfg : MemoryConfig) (sp : String) (msgs : List Message)
    (hlen : cfg.min_messages_to_keep < msgs.length)
    (hss : should_summarize cfg
        (calculate_token_usage tc cfg.max_context_tokens sp msgs) = true)
    (holder : pyDropLast (max cfg.min_messages_to_keep (msgs.length / 2)) msgs ≠ []) :
    ∃ s : String, (summarize_oldest tc cfg sp msgs).2 =
      ⟨"system", "[Context Summary]" ++ s⟩
        :: msgs.drop (msgs.length - max cfg.min_messages_to_keep (msgs.length / 2)) := by
  have hk : max cfg.min_messages_to_keep (msgs.length / 2) ≠ 0 := by
    intro h0
    exact holder (by simp [pyDropLast, h0])
  have hempty : (pyDropLast (max cfg.min_messages_to_keep (msgs.length / 2)) msgs).isEmpty
      = false := by
    simp [List.isEmpty_iff, holder]
  refine ⟨" " ++ summarize_messages
    (pyDropLast (max cfg.min_messages_to_keep (msgs.length / 2)) msgs) 500, ?_⟩
  unfold summarize_oldest
  dsimp only
  rw [if_neg (by omega), hss, hempty]
  show _ :: pyLastSlice _ msgs = _
  rw [← strAppend_assoc]
  have hmarker : ("[Context Summary] " : String) = "[Context Summary]" ++ " " := by decide
  rw [← hmarker]
  unfold pyLastSlice
  rw [if_neg hk]

/-- Witness for C5: a concrete triggering input; the tail of the result is
the last `max(1, 3/2) = 1` message of the input. -/
theorem summarize_oldest_triggered_shape_witness :
    ∃ s : String, (summarize_oldest (fun _ => 1)
        ⟨100, .summarize_oldest, true, 0, 1, true, "m", 200⟩ "s"
        [⟨"user", "a"⟩, ⟨"assistant", "b"⟩, ⟨"user", "c"⟩]).2 =
      ⟨"system", "[Context Summary]" ++ s⟩
        :: [⟨"user", "a"⟩, ⟨"assistant", "b"⟩, ⟨"user", "c"⟩].drop 2 :=
  summarize_oldest_triggered_shape (fun _ => 1)
    ⟨100, .summarize_oldest, true, 0, 1, true, "m", 200⟩ "s"
    [⟨"user", "a"⟩, ⟨"assistant", "b"⟩, ⟨"user", "c"⟩]
    (by decide) (by decide) (by decide)

/-- Length bound for the Python slice helper at a non-negative bound. -/
theorem pyTakeInt_length_le (s : String) (k : Int) (h : 0 ≤ k) :
    (pyTakeInt s k).length ≤ k.toNat := by
  unfold pyTakeInt
  rw [if_neg (by omega), strTake_length]
  exact min_le_left _ _

/-- C7 (amended): for a non-empty batch and `target_tokens ≥ 1`, the string
returned by `summarize_messages` is the fixed prefix
`"Summary of earlier conversation: "` followed by the composed sentences
joined with single spaces, hard-truncated to `target_tokens * 4` characters
with an ellipsis appended when truncation occurred; the total length is at
most `target_tokens * 4 + 33` (33 being the prefix length — the original
claim's bound of `target_tokens * 4` ignores the prefix, see the
counterexample); and the result never starts with the `"[Context Summary]"`
marker (the caller adds it). -/
theorem summarize_messages_shape (msgs : List Message) (target : Nat)
    (hne : msgs ≠ []) (htar : 1 ≤ target) :
    summarize_messages msgs target
      = "Summary of earlier conversation: "
        ++ (if (summaryBody msgs).length > target * 4 then
              pyTakeInt (summaryBody msgs) (((target * 4 : Nat) : Int) - 3) ++ "..."
            else summaryBody msgs)
    ∧ (summarize_messages msgs target).length ≤ target * 4 + 33
    ∧ ((summaryBody msgs).length > target * 4 →
        ∃ t : String, summarize_messages msgs target = t ++ "...")
    ∧ strTake (summarize_messages msgs target) 17 ≠ "[Context Summary]" := by
  have hempty : msgs.isEmpty = false := by simp [List.isEmpty_iff, hne]
  have heq : summarize_messages msgs target
      = "Summary of earlier conversation: "
        ++ (if (summaryBody msgs).length > target * 4 then
              pyTakeInt (summaryBody msgs) (((target * 4 : Nat) : Int) - 3) ++ "..."
            else summaryBody msgs) := by
    unfold summarize_messages
    rw [hempty]
    rfl
  have hpre : ("Summary of earlier conversation: " : String).length = 33 := by decide
  refine ⟨heq, ?_, ?_, ?_⟩
  · rw [heq, strLength_append, hpre]
    split
    · next hgt =>
      rw [strLength_append]
      have h1 : (pyTakeInt (summaryBody msgs) (((target * 4 : Nat) : Int) - 3)).length
          ≤ (((target * 4 : Nat) : Int) - 3).toNat :=
        pyTakeInt_length_le _ _ (by omega)
      have h2 : ("..." : String).length = 3 := by decide
      rw [h2]
      omega
    · next hle =>
      omega
  · intro hgt
    refine ⟨"Summary of earlier conversation: "
      ++ pyTakeInt (summaryBody msgs) (((target * 4 : Nat) : Int) - 3), ?_⟩
    rw [heq, if_pos hgt, ← strAppend_assoc]
  · rw [heq, strTake_append_left _ _ 17 (by decide)]
    decide

/-- Witness for C7 (amended), at a one-message batch and the default target
of 500 tokens. -/
theorem summarize_messages_shape_witness :
    summarize_messages [⟨"user", "hi"⟩] 500
      = "Summary of earlier conversation: "
        ++ (if (summaryBody [⟨"user", "hi"⟩]).length > 500 * 4 then
              pyTakeInt (summaryBody [⟨"user", "hi"⟩]) (((500 * 4 : Nat) : Int) - 3) ++ "..."
            else summaryBody [⟨"user", "hi"⟩])
    ∧ (summarize_messages [⟨"user", "hi"⟩] 500).length ≤ 500 * 4 + 33
    ∧ ((summaryBody [⟨"user", "hi"⟩]).length > 500 * 4 →
        ∃ t : String, summarize_messages [⟨"user", "hi"⟩] 500 = t ++ "...")
    ∧ strTake (summarize_messages [⟨"user", "hi"⟩] 500) 17 ≠ "[Context Summary]" :=
  summarize_messages_shape [⟨"user", "hi"⟩] 500 (by decide) (by decide)

/-- Counterexample to C7 as stated: with `target_tokens = 1` and a single
question message, the returned string is 37 characters long, exceeding the
claimed bound of `target_tokens * 4 = 4` — the fixed
`"Summary of earlier conversation: "` prefix is appended after truncation. -/
theorem summarize_messages_length_cex :
    ¬ (summarize_messages [⟨"user", "what is x"⟩] 1).length ≤ 1 * 4 := by
  decide

end MemoryManager
